import Mathlib

/-!
Shallow embedding of `ansible_rulebook/collection.py`: collection discovery
(`find_collection`, memoized with `functools.lru_cache`), the generic resource
search (`has_object` / `find_object` and their per-kind wrappers), rulebook
loading (`load_rulebook`) and the deprecation-routing lookup (`is_deprecated`).

Python strings are modeled as Lean `String`s, with the Python primitives the
module uses (`split`, `join`, `startswith`, slicing, `splitlines`,
`os.path.join`) implemented over the underlying character lists so that every
definition evaluates by kernel reduction.  The external collaborators
(the `ansible-galaxy` lister subprocess, the filesystem, the YAML decoder and
the vault detector) are modeled as components of an explicit environment
record `Env`; exceptions are modeled with `Except`.
-/

namespace Collection

/-! ## Python string primitives -/

/-- Python `pre.isPrefix of s`, i.e. `s.startswith(pre)`, over character lists. -/
def strStartsWith (s pre : String) : Bool :=
  pre.toList.isPrefixOf s.toList

/-- Python `s.endswith(suf)` over character lists (used by `os.path.join`). -/
def strEndsWith (s suf : String) : Bool :=
  suf.toList.reverse.isPrefixOf s.toList.reverse

/-- Python slicing `s[n:]` for an ASCII string, over character lists. -/
def strDrop (s : String) (n : Nat) : String :=
  String.mk (s.toList.drop n)

def splitCharAux (sep : Char) : List Char → List Char → List String
  | [], acc => [String.mk acc.reverse]
  | c :: rest, acc =>
    if c == sep then String.mk acc.reverse :: splitCharAux sep rest []
    else splitCharAux sep rest (c :: acc)

/-- Python `s.split(sep)` for a one-character separator (the module only ever
splits on `"."`). -/
def splitChar (sep : Char) (s : String) : List String :=
  splitCharAux sep s.toList []

/-- Python `sep.join(parts)` for a one-character separator. -/
def joinChar (sep : Char) : List String → String
  | [] => ""
  | [s] => s
  | s :: rest => s ++ String.mk [sep] ++ joinChar sep rest

/-- Python `s.splitlines()` for newline-separated subprocess output: split on
`\n` and drop the single trailing empty piece a terminating newline leaves. -/
def splitlines (s : String) : List String :=
  let ls := splitChar (Char.ofNat 10) s
  if ls.getLast? == some "" then ls.dropLast else ls

/-- Substring test over character lists (Python `needle in hay` for `str`). -/
def charsInfix : List Char → List Char → Bool
  | needle, [] => needle.isEmpty
  | needle, c :: rest => needle.isPrefixOf (c :: rest) || charsInfix needle rest

/-- One step of POSIX `os.path.join`: an absolute second component replaces the
first, otherwise the components are glued with `/` (no normalization). -/
def joinPath (a b : String) : String :=
  if strStartsWith b "/" then b
  else if a == "" then b
  else if strEndsWith a "/" then a ++ b
  else a ++ "/" ++ b

/-- `os.path.join(base, *parts)`. -/
def joinParts (base : String) (parts : List String) : String :=
  parts.foldl joinPath base

/-! ## YAML values and Python dynamic operations

`yaml.safe_load` produces `None`, booleans, strings, mappings or sequences;
non-string scalars other than booleans do not appear in the routing metadata
the module reads and are modeled as strings. -/

inductive Yaml where
  | null : Yaml
  | bool : Bool → Yaml
  | str : String → Yaml
  | map : List (String × Yaml) → Yaml
  | list : List Yaml → Yaml

/-- Exceptions the module can raise or propagate. -/
inductive Err where
  | exception : String → Err
  | keyError : String → Err
  | typeError : String → Err
  | attributeError : String → Err
  | nameError : String → Err
  | fileNotFoundError : String → Err
  | rulebookNotFoundException : String → Err

/-- Python truthiness of a decoded YAML value. -/
def pyTruthy : Yaml → Bool
  | .null => false
  | .bool b => b
  | .str s => !(s == "")
  | .map kvs => !kvs.isEmpty
  | .list xs => !xs.isEmpty

/-- Python `str(v)` as used in the deprecation warning f-string; container
renderings are abbreviated (the text never feeds back into control flow). -/
def pyFormat : Yaml → String
  | .null => "None"
  | .bool b => if b then "True" else "False"
  | .str s => s
  | .map _ => "{...}"
  | .list _ => "[...]"

/-- Python `key in data`: key membership for a mapping, element equality for a
sequence, substring containment for a string, `TypeError` otherwise. -/
def pyContains (data : Yaml) (key : String) : Except Err Bool :=
  match data with
  | .map kvs => .ok (kvs.any fun kv => kv.1 == key)
  | .list xs =>
    .ok (xs.any fun x => match x with | .str s => s == key | _ => false)
  | .str s => .ok (charsInfix key.toList s.toList)
  | .null => .error (.typeError "argument of type NoneType is not iterable")
  | .bool _ => .error (.typeError "argument of type bool is not iterable")

/-- Python `data[key]` for a string key. -/
def pySubscript (data : Yaml) (key : String) : Except Err Yaml :=
  match data with
  | .map kvs =>
    match kvs.find? (fun kv => kv.1 == key) with
    | some kv => .ok kv.2
    | none => .error (.keyError key)
  | .str _ => .error (.typeError "string indices must be integers")
  | .list _ => .error (.typeError "list indices must be integers")
  | .null => .error (.typeError "NoneType object is not subscriptable")
  | .bool _ => .error (.typeError "bool object is not subscriptable")

/-- Python `data.get(key, default)`; only mappings have a `get` method. -/
def pyGet (data : Yaml) (key : String) (default : Yaml) : Except Err Yaml :=
  match data with
  | .map kvs =>
    match kvs.find? (fun kv => kv.1 == key) with
    | some kv => .ok kv.2
    | none => .ok default
  | _ => .error (.attributeError "get")

/-! ## Environment: the external collaborators -/

/-- The process environment seen by `collection.py`: the configured lister
path, the lister subprocess (`None` models a `CalledProcessError`), the
filesystem (`os.path.exists` and file contents) and the external YAML and
vault capabilities. -/
structure Env where
  ansible_galaxy_path : Option String
  listerOutput : String → Option String
  exists_fs : String → Bool
  rawAt : String → String
  yamlLoad : String → Yaml
  has_vaulted_str : String → Bool

/-! ## Module constants (verbatim from the source) -/

def EDA_PATH_PREFIX : String := "extensions/eda"

def EDA_EXTENSIONS : String := "extensions.eda"

def EDA_FILTER_PATHS : List String :=
  [ EDA_PATH_PREFIX ++ "/plugins/event_filter",
    EDA_PATH_PREFIX ++ "/plugins/event_filters",
    "plugins/event_filter"]

def EDA_SOURCE_PATHS : List String :=
  [ EDA_PATH_PREFIX ++ "/plugins/event_source",
    EDA_PATH_PREFIX ++ "/plugins/event_sources",
    "plugins/event_source"]

def EDA_PLAYBOOKS_PATHS : List String := [".", "playbooks"]

def EDA_YAML_EXTENSIONS : List String := [".yml", ".yaml"]

/-! ## Collection locator (`find_collection`) -/

/-- The `for line in output.splitlines()` loop of `find_collection`: a line
prefixed `"# "` names a base directory, the name's dot-segments are appended
and the first resulting path that exists is returned. -/
def find_collection_lines (env : Env) (parts : List String) :
    List String → Option String
  | [] => none
  | line :: rest =>
    if strStartsWith line "# " then
      let location := strDrop line 2
      let location := joinParts location parts
      if env.exists_fs location then some location
      else find_collection_lines env parts rest
    else find_collection_lines env parts rest

/-- Body of `find_collection` past the configuration check: one lister
invocation (`None` output models the `CalledProcessError` branch, which logs
and returns `None`), then the line scan. -/
def find_collection_body (env : Env) (name : String) : Option String :=
  match env.listerOutput name with
  | none => none
  | some output =>
    let parts := splitChar '.' name
    find_collection_lines env parts (splitlines output)

/-- `find_collection` without its `lru_cache` wrapper: raises when
`settings.ansible_galaxy_path` is unset, otherwise runs the body. -/
def find_collection (env : Env) (name : String) : Except Err (Option String) :=
  match env.ansible_galaxy_path with
  | none => .error (.exception "ansible-galaxy is not installed")
  | some _ => .ok (find_collection_body env name)

/-! ## The `functools.lru_cache` wrapper on `find_collection`

The source decorates `find_collection` with bare `@lru_cache`, which in
Python is `lru_cache(maxsize=128)`: a bounded cache with least-recently-used
eviction.  The cache is modeled as a list ordered least-recently-used first;
exceptions are not cached; `listerCalls` counts lister subprocess spawns. -/

def lru_maxsize : Nat := 128

structure LocatorState where
  cache : List (String × Option String)
  listerCalls : Nat

def initLocatorState : LocatorState := ⟨[], 0⟩

/-- On a cache hit, `lru_cache` moves the entry to the most-recent position. -/
def lruTouch (cache : List (String × Option String)) (name : String) :
    List (String × Option String) :=
  match cache.find? (fun e => e.1 == name) with
  | some e => (cache.filter fun x => !(x.1 == name)) ++ [e]
  | none => cache

/-- On a miss, the new entry is inserted most-recent and, past capacity, the
least-recently-used entry is evicted. -/
def lruInsert (cache : List (String × Option String)) (name : String)
    (v : Option String) : List (String × Option String) :=
  let c := cache ++ [(name, v)]
  if lru_maxsize < c.length then c.drop (c.length - lru_maxsize) else c

/-- `find_collection` as actually exported: the `@lru_cache`-decorated
function, threading the cache state explicitly. -/
def cached_find_collection (env : Env) (st : LocatorState) (name : String) :
    Except Err (Option String × LocatorState) :=
  match st.cache.find? (fun e => e.1 == name) with
  | some e => .ok (e.2, ⟨lruTouch st.cache name, st.listerCalls⟩)
  | none =>
    match env.ansible_galaxy_path with
    | none => .error (.exception "ansible-galaxy is not installed")
    | some _ =>
      let v := find_collection_body env name
      .ok (v, ⟨lruInsert st.cache name v, st.listerCalls + 1⟩)

/-- A sequence of locate calls against the cached locator. -/
def runLocates (env : Env) (st : LocatorState) :
    List String → Except Err LocatorState
  | [] => .ok st
  | n :: rest =>
    match cached_find_collection env st n with
    | .error e => .error e
    | .ok (_, st2) => runLocates env st2 rest

/-! ## Resource resolver (`has_object` / `find_object`) -/

/-- A Python argument that is either a single string or a list of strings
(the module's `object_types` and `extensions` parameters). -/
inductive StrOrList where
  | str : String → StrOrList
  | list : List String → StrOrList

/-- Python iteration `for x in v`: a list yields its elements; a string
yields its characters, each a one-character string. -/
def pyIter : StrOrList → List String
  | .list l => l
  | .str s => s.toList.map (fun c => String.mk [c])

/-- The `if not isinstance(extensions, list): extensions = [extensions]`
normalization: only applied to `extensions`, never to `object_types`. -/
def normalizeList : StrOrList → List String
  | .list l => l
  | .str s => [s]

/-- The probed path `os.path.join(<collection dir>, object_type, name)
+ extension`.  (Inside the loops the source re-invokes the memoized
`find_collection`, which returns the already-located directory.) -/
def objectLocation (location0 object_type name extension : String) : String :=
  joinParts location0 [object_type, name] ++ extension

/-- The inner `for extension in extensions` loop: first existing probe wins. -/
def findInExts (env : Env) (location0 object_type name : String) :
    List String → Option String
  | [] => none
  | extension :: rest =>
    let location := objectLocation location0 object_type name extension
    if env.exists_fs location then some location
    else findInExts env location0 object_type name rest

/-- The outer `for object_type in object_types` loop. -/
def findInTypes (env : Env) (location0 name : String) (exts : List String) :
    List String → Option String
  | [] => none
  | object_type :: rest =>
    match findInExts env location0 object_type name exts with
    | some location => some location
    | none => findInTypes env location0 name exts rest

/-- `has_object`: `False` when the collection is absent, otherwise the nested
existence scan. -/
def has_object (env : Env) (collection name : String)
    (object_types extensions : StrOrList) : Except Err Bool :=
  match find_collection env collection with
  | .error e => .error e
  | .ok none => .ok false
  | .ok (some location0) =>
    let exts := normalizeList extensions
    .ok (((pyIter object_types).any fun object_type =>
      exts.any fun extension =>
        env.exists_fs (objectLocation location0 object_type name extension)))

/-- Dynamic result of `find_object`: the Python function returns the literal
`False` when the collection is absent, and a path string on success. -/
inductive PyRet where
  | pyFalse : PyRet
  | path : String → PyRet

/-- `find_object`: `False` when the collection is absent; otherwise the nested
search, and on exhaustion the `raise FileNotFoundError` whose f-string reads
the loop variables — a `NameError` when a loop never bound them. -/
def find_object (env : Env) (collection name : String)
    (object_types extensions : StrOrList) : Except Err PyRet :=
  match find_collection env collection with
  | .error e => .error e
  | .ok none => .ok .pyFalse
  | .ok (some location0) =>
    let exts := normalizeList extensions
    let types := pyIter object_types
    match findInTypes env location0 name exts types with
    | some location => .ok (.path location)
    | none =>
      match types.getLast?, exts.getLast? with
      | some object_type, some extension =>
        .error (.fileNotFoundError ("Cannot find " ++ object_type ++ " "
          ++ name ++ " in " ++ collection ++ " at "
          ++ objectLocation location0 object_type name extension))
      | some _, none => .error (.nameError "location")
      | none, _ => .error (.nameError "object_type")

/-! ## Per-kind wrappers and rulebook loading -/

def has_rulebook (env : Env) (collection rulebook : String) : Except Err Bool :=
  has_object env collection rulebook
    (.list [ EDA_PATH_PREFIX ++ "/rulebooks", "rulebooks"]) (.str ".yml")

/-- `load_rulebook`: searches like `find_object`, upgrades a falsy result to
`RulebookNotFoundException`, then reads the file, checks for vaulted content
and decodes the YAML. -/
def load_rulebook (env : Env) (collection rulebook : String) :
    Except Err (Bool × Yaml) :=
  match find_object env collection rulebook
      (.list [ EDA_PATH_PREFIX ++ "/rulebooks", "rulebooks"]) (.str ".yml") with
  | .error e => .error e
  | .ok .pyFalse =>
    .error (.rulebookNotFoundException ("Cannot find collection " ++ collection))
  | .ok (.path location) =>
    if location == "" then
      .error (.rulebookNotFoundException ("Cannot find collection " ++ collection))
    else
      let raw_data := env.rawAt location
      .ok (env.has_vaulted_str raw_data, env.yamlLoad raw_data)

def has_source (env : Env) (collection source : String) : Except Err Bool :=
  has_object env collection source (.list EDA_SOURCE_PATHS) (.str ".py")

def find_source (env : Env) (collection source : String) : Except Err PyRet :=
  find_object env collection source (.list EDA_SOURCE_PATHS) (.str ".py")

def has_source_filter (env : Env) (collection source_filter : String) :
    Except Err Bool :=
  has_object env collection source_filter (.list EDA_FILTER_PATHS) (.str ".py")

def find_source_filter (env : Env) (collection source_filter : String) :
    Except Err PyRet :=
  find_object env collection source_filter (.list EDA_FILTER_PATHS) (.str ".py")

def has_playbook (env : Env) (collection playbook : String) : Except Err Bool :=
  has_object env collection playbook
    (.list EDA_PLAYBOOKS_PATHS) (.list EDA_YAML_EXTENSIONS)

def find_playbook (env : Env) (collection playbook : String) : Except Err PyRet :=
  find_object env collection playbook
    (.list EDA_PLAYBOOKS_PATHS) (.list EDA_YAML_EXTENSIONS)

/-! ## Deprecation resolver (`is_deprecated`) -/

/-- The deprecation warning message: `msg = warning_text`, then
`msg += f" It will be removed in version {removal_version}."` when the
removal version is truthy — a `TypeError` when `warning_text` is not a
string there. -/
def buildDeprecationMsg (warning_text removal_version : Yaml) :
    Except Err Yaml :=
  if pyTruthy removal_version then
    match warning_text with
    | .str s =>
      .ok (.str (s ++ " It will be removed in version "
        ++ pyFormat removal_version ++ "."))
    | _ => .error (.typeError "unsupported operand types for +=")
  else .ok warning_text

/-- The collection-name part of a fully qualified plugin name:
`".".join(parts[:-1])`. -/
def collectionNameOf (name : String) : String :=
  joinChar '.' (splitChar '.' name).dropLast

/-- `is_deprecated`: short-circuits on names with fewer than two dot-segments,
resolves the collection, reads `meta/runtime.yml` when present and walks the
`plugin_routing` mapping; a positive match builds the warning message and
returns the `redirect` value. -/
def is_deprecated (env : Env) (name obj_type : String) :
    Except Err (Bool × Option Yaml) :=
  let parts := splitChar '.' name
  if parts.length < 2 then .ok (false, none)
  else
    let collection_name := joinChar '.' parts.dropLast
    match find_collection env collection_name with
    | .error e => .error e
    | .ok none => .ok (false, none)
    | .ok (some path) =>
      let runtime_yml := joinParts path ["meta", "runtime.yml"]
      if env.exists_fs runtime_yml then
        let data := env.yamlLoad (env.rawAt runtime_yml)
        match pyContains data "plugin_routing" with
        | .error e => .error e
        | .ok false => .ok (false, none)
        | .ok true =>
          match pySubscript data "plugin_routing" with
          | .error e => .error e
          | .ok plugin_routing =>
            match pyGet plugin_routing
                ( EDA_EXTENSIONS ++ ".plugins." ++ obj_type) (.map []) with
            | .error e => .error e
            | .ok deprecated_objs =>
              match pyGet deprecated_objs name (.map []) with
              | .error e => .error e
              | .ok deprecated_item =>
                match pyContains deprecated_item "redirect" with
                | .error e => .error e
                | .ok false => .ok (false, none)
                | .ok true =>
                  match pyGet deprecated_item "deprecation" (.map []) with
                  | .error e => .error e
                  | .ok deprecation_details =>
                    match pyGet deprecation_details "warning_text" (.str "") with
                    | .error e => .error e
                    | .ok warning_text =>
                      match pyGet deprecation_details "removal_version" .null with
                      | .error e => .error e
                      | .ok removal_version =>
                        match buildDeprecationMsg warning_text removal_version with
                        | .error e => .error e
                        | .ok _msg =>
                          match pySubscript deprecated_item "redirect" with
                          | .error e => .error e
                          | .ok redirect => .ok (true, some redirect)
      else .ok (false, none)

/-! ## Support definitions for the verification -/

/-- The probe order of `find_object`'s nested loops, flattened: sub-paths in
the order given (outer), extensions in the order given (inner). -/
def searchOrder (location0 name : String) (types exts : List String) :
    List String :=
  types.flatMap fun t => exts.map fun e => objectLocation location0 t name e

/-- Discriminates the rulebook-specific not-found condition. -/
def isRulebookNotFound (r : Except Err (Bool × Yaml)) : Bool :=
  match r with
  | .error (.rulebookNotFoundException _) => true
  | _ => false

/-- Lister-call count of a locator run (0 for a raised exception). -/
def listerCallsOf : Except Err LocatorState → Nat
  | .ok st => st.listerCalls
  | .error _ => 0

/-! ## Support lemmas -/

theorem findInExts_eq_find? (env : Env) (location0 t name : String)
    (exts : List String) :
    findInExts env location0 t name exts =
      (exts.map fun e => objectLocation location0 t name e).find? env.exists_fs := by
  induction exts with
  | nil => rfl
  | cons e rest ih =>
    cases hx : env.exists_fs (objectLocation location0 t name e) with
    | true => simp [findInExts, hx, List.find?_cons_of_pos]
    | false => simp [findInExts, hx, List.find?_cons_of_neg, ih]

theorem findInTypes_eq_find? (env : Env) (location0 name : String)
    (exts types : List String) :
    findInTypes env location0 name exts types =
      (searchOrder location0 name types exts).find? env.exists_fs := by
  induction types with
  | nil => rfl
  | cons t rest ih =>
    rw [findInTypes, searchOrder, List.flatMap_cons, List.find?_append,
      findInExts_eq_find?]
    cases (exts.map fun e => objectLocation location0 t name e).find? env.exists_fs with
    | none => simpa [searchOrder] using ih
    | some p => rfl

theorem findInTypes_nil_exts (env : Env) (location0 name : String)
    (types : List String) :
    findInTypes env location0 name [] types = none := by
  induction types with
  | nil => rfl
  | cons t rest ih => rw [findInTypes, findInExts, ih]

theorem findInExts_sound (env : Env) (location0 t name : String)
    (exts : List String) (p : String)
    (h : findInExts env location0 t name exts = some p) :
    ∃ e ∈ exts, p = objectLocation location0 t name e ∧ env.exists_fs p = true := by
  induction exts with
  | nil => exact absurd h (by simp [findInExts])
  | cons e rest ih =>
    rw [findInExts] at h
    by_cases hx : env.exists_fs (objectLocation location0 t name e) = true
    · rw [if_pos hx] at h
      exact ⟨e, by simp, by injection h with h2; subst h2; exact ⟨rfl, hx⟩⟩
    · rw [if_neg hx] at h
      obtain ⟨e2, he2, hp⟩ := ih h
      exact ⟨e2, by simp [he2], hp⟩

theorem findInTypes_sound (env : Env) (location0 name : String)
    (exts types : List String) (p : String)
    (h : findInTypes env location0 name exts types = some p) :
    ∃ t ∈ types, ∃ e ∈ exts,
      p = objectLocation location0 t name e ∧ env.exists_fs p = true := by
  induction types with
  | nil => exact absurd h (by simp [findInTypes])
  | cons t rest ih =>
    rw [findInTypes] at h
    cases hx : findInExts env location0 t name exts with
    | some q =>
      rw [hx] at h
      injection h with h2
      obtain ⟨e, he, hp⟩ := findInExts_sound env location0 t name exts q hx
      exact ⟨t, by simp, e, he, h2 ▸ hp⟩
    | none =>
      rw [hx] at h
      obtain ⟨t2, ht2, e, he, hp⟩ := ih h
      exact ⟨t2, by simp [ht2], e, he, hp⟩

theorem find_collection_lines_eq_findSome? (env : Env) (parts : List String)
    (ls : List String) :
    find_collection_lines env parts ls = ls.findSome? (fun line =>
      if strStartsWith line "# " then
        let location := joinParts (strDrop line 2) parts
        if env.exists_fs location then some location else none
      else none) := by
  induction ls with
  | nil => rfl
  | cons line rest ih =>
    rw [find_collection_lines, List.findSome?_cons]
    by_cases hs : strStartsWith line "# " = true
    · by_cases hx :
        env.exists_fs (joinParts (strDrop line 2) parts) = true
      · simp [hs, hx]
      · simp only [Bool.not_eq_true] at hx
        simp [hs, hx, ih]
    · simp only [Bool.not_eq_true] at hs
      simp [hs, ih]

/-! ## Concrete environments for witnesses and counterexamples -/

/-- A host where collection `ns.col` is installed at `/base/ns/col` but no
resource file exists under it. -/
def envRulebookless : Env :=
  { ansible_galaxy_path := some "/usr/bin/ansible-galaxy"
    listerOutput := fun _ => some "# /base"
    exists_fs := fun p => p == "/base/ns/col"
    rawAt := fun _ => ""
    yamlLoad := fun _ => .null
    has_vaulted_str := fun _ => false }

/-- A host where the lister exits nonzero for every name: no collection is
ever located. -/
def envAbsent : Env :=
  { ansible_galaxy_path := some "/usr/bin/ansible-galaxy"
    listerOutput := fun _ => none
    exists_fs := fun _ => false
    rawAt := fun _ => ""
    yamlLoad := fun _ => .null
    has_vaulted_str := fun _ => false }

/-- A host with no configured `ansible-galaxy` executable. -/
def envNoGalaxy : Env :=
  { ansible_galaxy_path := none
    listerOutput := fun _ => none
    exists_fs := fun _ => false
    rawAt := fun _ => ""
    yamlLoad := fun _ => .null
    has_vaulted_str := fun _ => false }

/-- A host where `ns.col` is installed and holds one event-source plugin at
the legacy sub-path. -/
def envSource : Env :=
  { ansible_galaxy_path := some "/usr/bin/ansible-galaxy"
    listerOutput := fun _ => some "# /base"
    exists_fs := fun p =>
      p == "/base/ns/col" || p == "/base/ns/col/plugins/event_source/src.py"
    rawAt := fun _ => ""
    yamlLoad := fun _ => .null
    has_vaulted_str := fun _ => false }

/-! ## C1 -/

/-- C1, counterexample: with `ns.col` installed but no candidate rulebook
file on disk, `load_rulebook` propagates the generic `FileNotFoundError`
raised by `find_object`, not `RulebookNotFoundException` — refuting the claim
that a missing rulebook file surfaces as the distinct rulebook-not-found
condition. -/
theorem C1_counterexample :
    load_rulebook envRulebookless "ns.col" "rb" =
      .error (.fileNotFoundError
        "Cannot find rulebooks rb in ns.col at /base/ns/col/rulebooks/rb.yml")
    ∧ isRulebookNotFound (load_rulebook envRulebookless "ns.col" "rb") = false :=
  ⟨rfl, rfl⟩

/-- C1, amended: `RulebookNotFoundException` is raised only when the
collection itself is absent; when the collection is installed but no
candidate rulebook file exists, `load_rulebook` fails with the generic
`FileNotFoundError` of the underlying search, carrying the last-probed
path. -/
theorem C1_load_rulebook_missing_file_generic_error (env : Env)
    (collection rulebook location0 : String)
    (h : find_collection env collection = .ok (some location0))
    (h1 : env.exists_fs (objectLocation location0
      ( EDA_PATH_PREFIX ++ "/rulebooks") rulebook ".yml") = false)
    (h2 : env.exists_fs (objectLocation location0 "rulebooks" rulebook ".yml")
      = false) :
    load_rulebook env collection rulebook =
      .error (.fileNotFoundError ("Cannot find " ++ "rulebooks" ++ " "
        ++ rulebook ++ " in " ++ collection ++ " at "
        ++ objectLocation location0 "rulebooks" rulebook ".yml")) := by
  unfold load_rulebook find_object
  simp only [h, normalizeList, pyIter, findInTypes, findInExts, h1, h2]
  rfl

/-- C1, witness for the amended theorem at a concrete host. -/
theorem C1_witness :
    find_collection envRulebookless "ns.col" = .ok (some "/base/ns/col")
    ∧ envRulebookless.exists_fs
        (objectLocation "/base/ns/col" ( EDA_PATH_PREFIX ++ "/rulebooks") "rb" ".yml") = false
    ∧ envRulebookless.exists_fs
        (objectLocation "/base/ns/col" "rulebooks" "rb" ".yml") = false
    ∧ load_rulebook envRulebookless "ns.col" "rb" =
        .error (.fileNotFoundError
          "Cannot find rulebooks rb in ns.col at /base/ns/col/rulebooks/rb.yml") :=
  ⟨rfl, rfl, rfl,
    C1_load_rulebook_missing_file_generic_error envRulebookless "ns.col" "rb"
      "/base/ns/col" rfl rfl rfl⟩

/-! ## C2 -/

/-- C2, counterexample: with the collection absent, `find_object` (and the
`find_source` wrapper) returns normally with the non-path value `False`
instead of failing with a not-found condition. -/
theorem C2_counterexample :
    find_object envAbsent "missing.col" "x"
      (.list ["plugins/event_source"]) (.str ".py") = .ok .pyFalse
    ∧ find_source envAbsent "missing.col" "x" = .ok .pyFalse :=
  ⟨rfl, rfl⟩

/-- C2, amended: when the Locator reports the collection absent, `find_object`
— and hence `find_source`, `find_source_filter` and `find_playbook` — returns
normally with the Python literal `False` (a non-path sentinel); callers such
as `load_rulebook` are the ones that upgrade it to an exception. -/
theorem C2_find_object_absent_returns_false (env : Env)
    (collection name : String) (object_types extensions : StrOrList)
    (h : find_collection env collection = .ok none) :
    find_object env collection name object_types extensions = .ok .pyFalse
    ∧ find_source env collection name = .ok .pyFalse
    ∧ find_source_filter env collection name = .ok .pyFalse
    ∧ find_playbook env collection name = .ok .pyFalse := by
  have base : ∀ ot ex, find_object env collection name ot ex = .ok .pyFalse := by
    intro ot ex
    unfold find_object
    rw [h]
  exact ⟨base _ _, base _ _, base _ _, base _ _⟩

/-- C2, witness for the amended theorem at a concrete host. -/
theorem C2_witness :
    find_collection envAbsent "missing.col" = .ok none
    ∧ find_object envAbsent "missing.col" "x"
        (.list ["plugins/event_source"]) (.str ".py") = .ok .pyFalse
    ∧ find_source envAbsent "missing.col" "x" = .ok .pyFalse
    ∧ find_source_filter envAbsent "missing.col" "x" = .ok .pyFalse
    ∧ find_playbook envAbsent "missing.col" "x" = .ok .pyFalse :=
  ⟨rfl, C2_find_object_absent_returns_false envAbsent "missing.col" "x"
    (.list ["plugins/event_source"]) (.str ".py") rfl⟩

/-! ## C3 -/

/-- Routing entries of the mock collection's `meta/runtime.yml` for event
sources (as in the repository's test data). -/
def routingSourceObjs : Yaml :=
  .map [("ansible.eda.range", .map [("redirect", .str "eda.builtin.range")])]

def routingFilterObjs : Yaml :=
  .map [("ansible.eda.json_filter",
    .map [("redirect", .str "eda.builtin.json_filter")])]

def routingPR : Yaml :=
  .map [("extensions.eda.plugins.event_filter", routingFilterObjs),
    ("extensions.eda.plugins.event_source", routingSourceObjs)]

def runtimeData : Yaml := .map [("plugin_routing", routingPR)]

/-- A host where every collection resolves under `/base` and every
`meta/runtime.yml` decodes to the mock routing metadata. -/
def envRouting : Env :=
  { ansible_galaxy_path := some "/usr/bin/ansible-galaxy"
    listerOutput := fun _ => some "# /base"
    exists_fs := fun _ => true
    rawAt := fun _ => ""
    yamlLoad := fun _ => runtimeData
    has_vaulted_str := fun _ => false }

/-- C3, counterexample: with the lister configuration unset, `is_deprecated`
propagates the configuration exception raised by `find_collection` instead of
degrading to `(False, None)` — refuting "never raises". -/
theorem C3_counterexample :
    is_deprecated envNoGalaxy "a.b" "event_source" =
      .error (.exception "ansible-galaxy is not installed") := rfl

/-- C3, amended: with the lister configuration set, the sub-lookup misses all
degrade to `(False, None)`: absent collection, missing `meta/runtime.yml`,
decoded data without `plugin_routing`, a miss at any nesting level of
mapping-structured routing data, and a matched entry without `redirect`.
With the configuration unset, any name with at least two dot-segments makes
`is_deprecated` raise the configuration exception instead. -/
theorem C3_is_deprecated_degrades (env : Env) (name obj_type g : String)
    (hg : env.ansible_galaxy_path = some g) :
    (find_collection_body env (collectionNameOf name) = none →
      is_deprecated env name obj_type = .ok (false, none))
    ∧ (∀ path, find_collection_body env (collectionNameOf name) = some path →
        env.exists_fs (joinParts path ["meta", "runtime.yml"]) = false →
        is_deprecated env name obj_type = .ok (false, none))
    ∧ (∀ path, find_collection_body env (collectionNameOf name) = some path →
        env.exists_fs (joinParts path ["meta", "runtime.yml"]) = true →
        pyContains (env.yamlLoad (env.rawAt (joinParts path ["meta", "runtime.yml"])))
          "plugin_routing" = .ok false →
        is_deprecated env name obj_type = .ok (false, none))
    ∧ (∀ path pr objs item,
        find_collection_body env (collectionNameOf name) = some path →
        env.exists_fs (joinParts path ["meta", "runtime.yml"]) = true →
        pyContains (env.yamlLoad (env.rawAt (joinParts path ["meta", "runtime.yml"])))
          "plugin_routing" = .ok true →
        pySubscript (env.yamlLoad (env.rawAt (joinParts path ["meta", "runtime.yml"])))
          "plugin_routing" = .ok pr →
        pyGet pr ( EDA_EXTENSIONS ++ ".plugins." ++ obj_type) (.map []) = .ok objs →
        pyGet objs name (.map []) = .ok item →
        pyContains item "redirect" = .ok false →
        is_deprecated env name obj_type = .ok (false, none))
    ∧ (2 ≤ (splitChar '.' name).length →
        is_deprecated { env with ansible_galaxy_path := none } name obj_type =
          .error (.exception "ansible-galaxy is not installed")) := by
  by_cases hlen : (splitChar '.' name).length < 2
  · refine ⟨?_, ?_, ?_, ?_, ?_⟩
    · intro _; unfold is_deprecated; simp [hlen]
    · intro path _ _; unfold is_deprecated; simp [hlen]
    · intro path _ _ _; unfold is_deprecated; simp [hlen]
    · intro path pr objs item _ _ _ _ _ _ _; unfold is_deprecated; simp [hlen]
    · intro h2; omega
  · have hfc : ∀ v, find_collection_body env (collectionNameOf name) = v →
        find_collection env (joinChar '.' (splitChar '.' name).dropLast) = .ok v := by
      intro v hv
      unfold find_collection
      rw [hg]
      rw [collectionNameOf] at hv
      exact congrArg Except.ok hv
    refine ⟨?_, ?_, ?_, ?_, ?_⟩
    · intro hb
      unfold is_deprecated
      simp [hlen, hfc none hb]
    · intro path hb hex
      unfold is_deprecated
      simp [hlen, hfc (some path) hb, hex]
    · intro path hb hex hc
      unfold is_deprecated
      simp [hlen, hfc (some path) hb, hex, hc]
    · intro path pr objs item hb hex hc hsub hobjs hitem hred
      unfold is_deprecated
      simp [hlen, hfc (some path) hb, hex, hc, hsub, hobjs, hitem, hred]
    · intro _
      unfold is_deprecated
      simp only [hlen, if_neg hlen]
      unfold find_collection
      rfl

/-- C3, witness for the amended theorem: a configured host with mock routing
metadata and a plugin name absent from it degrades to `(False, None)`. -/
theorem C3_witness :
    envRouting.ansible_galaxy_path = some "/usr/bin/ansible-galaxy"
    ∧ is_deprecated envRouting "ansible.eda.alertmanager" "event_source" =
        .ok (false, none) :=
  ⟨rfl,
    (C3_is_deprecated_degrades envRouting "ansible.eda.alertmanager"
        "event_source" "/usr/bin/ansible-galaxy" rfl).2.2.2.1
      "/base/ansible/eda" routingPR routingSourceObjs (.map [])
      rfl rfl rfl rfl rfl rfl rfl⟩

/-! ## C5 -/

/-- A host where `ns.col` is installed and the only resource file sits under
the one-character sub-path `a`. -/
def envCharIter : Env :=
  { ansible_galaxy_path := some "/usr/bin/ansible-galaxy"
    listerOutput := fun _ => some "# /base"
    exists_fs := fun p => p == "/base/ns/col" || p == "/base/ns/col/a/x.py"
    rawAt := fun _ => ""
    yamlLoad := fun _ => .null
    has_vaulted_str := fun _ => false }

/-- C5, counterexample: a scalar sub-path argument is NOT normalized to a
one-element sequence — the string `"ab"` is iterated character by character,
probing sub-paths `a` and `b`, so it finds a file the one-element list
`["ab"]` does not. -/
theorem C5_counterexample :
    has_object envCharIter "ns.col" "x" (.str "ab") (.str ".py") = .ok true
    ∧ has_object envCharIter "ns.col" "x" (.list ["ab"]) (.str ".py") = .ok false :=
  ⟨rfl, rfl⟩

/-- C5, amended: only the extension parameter is normalized from a scalar to
a one-element sequence; the sub-path parameter is iterated directly, so a
scalar string there behaves as the sequence of its one-character strings. -/
theorem C5_only_extensions_normalized (env : Env) (collection name : String)
    (object_types : StrOrList) (s : String) :
    has_object env collection name object_types (.str s)
      = has_object env collection name object_types (.list [s])
    ∧ find_object env collection name object_types (.str s)
      = find_object env collection name object_types (.list [s])
    ∧ pyIter (.str s) = s.toList.map (fun c => String.mk [c]) :=
  ⟨rfl, rfl, rfl⟩

/-! ## C8 -/

/-- C8: a fully-qualified name with fewer than two dot-segments makes
`is_deprecated` return `(False, None)` for EVERY environment — including one
whose locator would raise on any consultation — so no collection lookup is
performed on this path. -/
theorem C8_short_name_short_circuit (env : Env) (name obj_type : String)
    (h : (splitChar '.' name).length < 2) :
    is_deprecated env name obj_type = .ok (false, none) := by
  unfold is_deprecated
  simp [h]

/-- C8, witness: `invalid_name` under the host with no lister configured
(where any locate raises) still yields `(False, None)`. -/
theorem C8_witness :
    (splitChar '.' "invalid_name").length < 2
    ∧ is_deprecated envNoGalaxy "invalid_name" "event_source" = .ok (false, none) :=
  ⟨by decide,
    C8_short_name_short_circuit envNoGalaxy "invalid_name" "event_source"
      (by decide)⟩

/-! ## C9 -/

/-- C9: for an installed collection, an empty candidate sub-path sequence —
or a non-empty one with an empty extension list — drives `find_object` into
the `raise` statement with its loop variables never bound, so the call fails
with a `NameError` (unbound name) instead of the documented not-found
condition. -/
theorem C9_empty_candidates_unbound_name (env : Env)
    (collection name location0 : String) (extensions : StrOrList)
    (t : String) (ts : List String)
    (h : find_collection env collection = .ok (some location0)) :
    find_object env collection name (.list []) extensions
      = .error (.nameError "object_type")
    ∧ find_object env collection name (.list (t :: ts)) (.list [])
      = .error (.nameError "location") := by
  constructor
  · unfold find_object
    simp [h, pyIter, findInTypes]
  · unfold find_object
    simp only [h, pyIter, normalizeList, findInTypes_nil_exts]
    obtain ⟨v, hv⟩ := Option.isSome_iff_exists.mp
      (List.getLast?_isSome.mpr (by simp : (t :: ts) ≠ []))
    simp [hv]

/-- C9, witness at a concrete installed collection. -/
theorem C9_witness :
    find_collection envRulebookless "ns.col" = .ok (some "/base/ns/col")
    ∧ find_object envRulebookless "ns.col" "x" (.list []) (.str ".py")
        = .error (.nameError "object_type")
    ∧ find_object envRulebookless "ns.col" "x" (.list ["rulebooks"]) (.list [])
        = .error (.nameError "location") :=
  ⟨rfl,
    (C9_empty_candidates_unbound_name envRulebookless "ns.col" "x"
      "/base/ns/col" (.str ".py") "rulebooks" [] rfl).1,
    (C9_empty_candidates_unbound_name envRulebookless "ns.col" "x"
      "/base/ns/col" (.str ".py") "rulebooks" [] rfl).2⟩

/-! ## C6 -/

/-- A host where `ns.col` is installed and a matching file exists under BOTH
listed sub-paths `p1` and `p2`. -/
def envTwoSub : Env :=
  { ansible_galaxy_path := some "/usr/bin/ansible-galaxy"
    listerOutput := fun _ => some "# /base"
    exists_fs := fun p =>
      p == "/base/ns/col" || p == "/base/ns/col/p1/x.py"
        || p == "/base/ns/col/p2/x.py"
    rawAt := fun _ => ""
    yamlLoad := fun _ => .null
    has_vaulted_str := fun _ => false }

/-- C6: for an installed collection, the search of `find_object` is
deterministic — it probes sub-paths in the order given (outer loop) and
extensions in the order given (inner loop) and returns the first existing
file (the first hit of `searchOrder`); in particular, when some extension
matches under the first-listed sub-path, the returned path lies under it,
whatever the remaining sub-paths hold. -/
theorem C6_deterministic_search_order (env : Env)
    (collection name location0 : String) (types exts : List String)
    (h : find_collection env collection = .ok (some location0)) :
    (∀ p, (searchOrder location0 name types exts).find? env.exists_fs = some p →
      find_object env collection name (.list types) (.list exts) = .ok (.path p))
    ∧ (∀ t1 rest p,
        (exts.map fun e => objectLocation location0 t1 name e).find?
            env.exists_fs = some p →
        find_object env collection name (.list (t1 :: rest)) (.list exts)
          = .ok (.path p)) := by
  have general : ∀ (types2 : List String) (p : String),
      (searchOrder location0 name types2 exts).find? env.exists_fs = some p →
      find_object env collection name (.list types2) (.list exts)
        = .ok (.path p) := by
    intro types2 p hp
    unfold find_object
    simp only [h, normalizeList, pyIter, findInTypes_eq_find?, hp]
  refine ⟨general types, ?_⟩
  intro t1 rest p hp
  apply general
  rw [searchOrder, List.flatMap_cons, List.find?_append, hp]
  rfl

/-- C6, witness: files exist under both `p1` and `p2`; the path under the
first-listed sub-path `p1` is returned. -/
theorem C6_witness :
    find_collection envTwoSub "ns.col" = .ok (some "/base/ns/col")
    ∧ envTwoSub.exists_fs "/base/ns/col/p1/x.py" = true
    ∧ envTwoSub.exists_fs "/base/ns/col/p2/x.py" = true
    ∧ find_object envTwoSub "ns.col" "x" (.list ["p1", "p2"]) (.list [".py"])
        = .ok (.path "/base/ns/col/p1/x.py") :=
  ⟨rfl, rfl, rfl,
    (C6_deterministic_search_order envTwoSub "ns.col" "x" "/base/ns/col"
        ["p1", "p2"] [".py"] rfl).2 "p1" ["p2"] "/base/ns/col/p1/x.py" rfl⟩

/-! ## C7 -/

/-- C7: with the lister configured and its output captured, `find_collection`
parses the output line by line: a line prefixed with `"# "` names a base
directory, the name's dot-segments are appended as nested subdirectories, and
the first resulting path existing on disk is returned; when no comment-marker
line yields an existing directory the result is `None` (the `findSome?` on
the right is `none`). -/
theorem C7_locate_parses_lister_output (env : Env) (name g out : String)
    (hg : env.ansible_galaxy_path = some g)
    (ho : env.listerOutput name = some out) :
    find_collection env name = .ok ((splitlines out).findSome? fun line =>
      if strStartsWith line "# " then
        let location := joinParts (strDrop line 2) (splitChar '.' name)
        if env.exists_fs location then some location else none
      else none) := by
  unfold find_collection find_collection_body
  simp only [hg, ho, find_collection_lines_eq_findSome?]

/-- C7, witness: on a concrete host the parse finds `/base/ns/col` from the
comment-marker line `# /base`, skipping non-marker lines. -/
theorem C7_witness :
    envSource.ansible_galaxy_path = some "/usr/bin/ansible-galaxy"
    ∧ envSource.listerOutput "ns.col" = some "# /base"
    ∧ find_collection envSource "ns.col" =
        .ok ((splitlines "# /base").findSome? fun line =>
          if strStartsWith line "# " then
            let location := joinParts (strDrop line 2) (splitChar '.' "ns.col")
            if envSource.exists_fs location then some location else none
          else none)
    ∧ ((splitlines "# /base").findSome? fun line =>
          if strStartsWith line "# " then
            let location := joinParts (strDrop line 2) (splitChar '.' "ns.col")
            if envSource.exists_fs location then some location else none
          else none) = some "/base/ns/col" :=
  ⟨rfl, rfl,
    C7_locate_parses_lister_output envSource "ns.col"
      "/usr/bin/ansible-galaxy" "# /base" rfl rfl, rfl⟩

/-! ## C10 -/

/-- C10, soundness of a successful `find`: every path returned normally by
`find_object` is the located collection directory joined with one of the
candidate sub-paths and the resource name suffixed with one of the candidate
extensions, and that path existed on disk when probed. -/
theorem C10_find_object_sound (env : Env) (collection name : String)
    (object_types extensions : StrOrList) (p : String)
    (h : find_object env collection name object_types extensions
      = .ok (.path p)) :
    ∃ location0, find_collection env collection = .ok (some location0) ∧
      ∃ t ∈ pyIter object_types, ∃ e ∈ normalizeList extensions,
        p = objectLocation location0 t name e ∧ env.exists_fs p = true := by
  unfold find_object at h
  cases hfc : find_collection env collection with
  | error e => rw [hfc] at h; exact absurd h (by simp)
  | ok o =>
    cases o with
    | none => rw [hfc] at h; exact absurd h (by simp)
    | some location0 =>
      simp only [hfc] at h
      cases hft : findInTypes env location0 name (normalizeList extensions)
          (pyIter object_types) with
      | none =>
        rw [hft] at h
        cases h1 : (pyIter object_types).getLast? <;>
          cases h2 : (normalizeList extensions).getLast? <;>
            simp [h1, h2] at h
      | some q =>
        rw [hft] at h
        simp only [Except.ok.injEq, PyRet.path.injEq] at h
        obtain ⟨t, ht, e, he, hq, hx⟩ :=
          findInTypes_sound env location0 name (normalizeList extensions)
            (pyIter object_types) q hft
        exact ⟨location0, rfl, t, ht, e, he, h ▸ hq, h ▸ hx⟩

/-- C10, witness: the source plugin found on a concrete host decomposes into
the located directory, a listed sub-path, the name and a listed extension. -/
theorem C10_witness :
    find_object envSource "ns.col" "src" (.list EDA_SOURCE_PATHS) (.str ".py")
      = .ok (.path "/base/ns/col/plugins/event_source/src.py")
    ∧ ∃ location0, find_collection envSource "ns.col" = .ok (some location0) ∧
        ∃ t ∈ pyIter (.list EDA_SOURCE_PATHS), ∃ e ∈ normalizeList (.str ".py"),
          "/base/ns/col/plugins/event_source/src.py"
            = objectLocation location0 t "src" e
          ∧ envSource.exists_fs "/base/ns/col/plugins/event_source/src.py" = true :=
  ⟨rfl,
    C10_find_object_sound envSource "ns.col" "src" (.list EDA_SOURCE_PATHS)
      (.str ".py") "/base/ns/col/plugins/event_source/src.py" rfl⟩

/-! ## C4 -/

/-- A host where every collection name resolves: each locate of a new name
costs one lister invocation. -/
def env128 : Env :=
  { ansible_galaxy_path := some "/usr/bin/ansible-galaxy"
    listerOutput := fun _ => some "# /base"
    exists_fs := fun _ => true
    rawAt := fun _ => ""
    yamlLoad := fun _ => .null
    has_vaulted_str := fun _ => false }

/-- 128 distinct collection names, all different from `a.b`. -/
def midNames : List String := (List.range 128).map (fun i => "c" ++ toString i)

set_option maxRecDepth 100000 in
/-- C4, counterexample: locating `a.b` and then 128 distinct other names
costs 129 lister invocations; a final repeated locate of `a.b` then costs a
130th — the entry for `a.b` was evicted, because bare `@lru_cache` is a
bounded LRU cache of 128 entries, refuting "append-only, never evicted,
regardless of how many distinct names were located in between". -/
theorem C4_counterexample :
    listerCallsOf (runLocates env128 initLocatorState ("a.b" :: midNames)) = 129
    ∧ listerCallsOf (runLocates env128 initLocatorState
        (("a.b" :: midNames) ++ ["a.b"])) = 130 :=
  ⟨by decide, by decide⟩

/-- C4, amended: the cache is a bounded LRU cache (`lru_cache` default
capacity 128), so entries CAN be evicted; while a name's entry is still
cached, a locate call with the identical name returns the cached result
without re-invoking the external lister (the lister-invocation count is
unchanged), but after enough distinct intervening names the entry is evicted
and the lister is re-invoked (see the counterexample). -/
theorem C4_cache_hit_no_lister_call (env : Env) (st : LocatorState)
    (name : String) (e : String × Option String)
    (h : st.cache.find? (fun x => x.1 == name) = some e) :
    cached_find_collection env st name =
      .ok (e.2, ⟨lruTouch st.cache name, st.listerCalls⟩) := by
  unfold cached_find_collection
  rw [h]

/-- C4, witness: a cache holding `a.b` answers a repeated locate from the
cache, leaving the lister-invocation count at 7. -/
theorem C4_witness :
    (⟨[("a.b", some "/base/a/b")], 7⟩ : LocatorState).cache.find?
        (fun x => x.1 == "a.b") = some ("a.b", some "/base/a/b")
    ∧ cached_find_collection env128 ⟨[("a.b", some "/base/a/b")], 7⟩ "a.b" =
        .ok (some "/base/a/b", ⟨[("a.b", some "/base/a/b")], 7⟩) :=
  ⟨rfl,
    C4_cache_hit_no_lister_call env128 ⟨[("a.b", some "/base/a/b")], 7⟩
      "a.b" ("a.b", some "/base/a/b") rfl⟩

end Collection
